import Mathlib

/-!
Shallow embedding of the xylium-otel repository (Go) in Lean 4.

The repository has two source files:
  * otel.go       — the `Connector` type, its constructor `New`, and the
                    methods `GetTracer`, `Propagator`, `Close`, `IsNoOp`.
  * middleware.go — `OtelMiddleware`, the per-request tracing middleware.

Modelling conventions:
  * Go `nil`-able values become `Option`.
  * The presence of the `AppLogger` dependency is modelled as a `Bool`
    (all the logger does in this code is log; only nil-ness matters).
  * External effects (the Xylium run mode, exporter construction,
    resource merging, the process-global OTel tracer provider and
    propagator) are collected in a `World` record that `New` reads and
    updates, mirroring `otel.SetTracerProvider` / `otel.SetTextMapPropagator`.
  * Tracer providers are abstract values (`TP`); what matters to the
    spec is whether a tracer obtained from one records spans.
  * The middleware is modelled as a function from an abstract Xylium
    request context to a `RunResult` that records every externally
    observable action: the error returned upward, span start/end events,
    the context(s) the inner handler was invoked with, the keys the
    middleware wrote into the request-scoped store, and the final state
    of the span object (the sequence of SetAttributes / RecordError /
    SetStatus / End calls applied to a fresh recording span, with the
    OTel SDK's status-priority rule).
-/

namespace XyliumOtel

/-- Abstract Go `context.Context` values. Only identity matters. -/
abbrev GoCtx := Nat

/-- A text-map carrier (the fasthttp request header), as key/value pairs. -/
abbrev Carrier := List (String × String)

/-- An OTel attribute, modelled as a key/value string pair. -/
abbrev Attr := String × String

/-- A primitive text-map propagator: W3C TraceContext, W3C Baggage, or an
arbitrary user-supplied one (identified by a tag). -/
inductive PrimProp where
  | traceContext
  | baggage
  | custom (id : Nat)
  deriving DecidableEq, Repr

/-- A composite text-map propagator: `propagation.NewCompositeTextMapPropagator(ps...)`
is the list of its primitive members; the empty list is the empty composite. -/
abbrev PropagatorVal := List PrimProp

/-- Abstract semantics of the primitive propagators' Extract methods
(owned by the OTel SDK, not by this repository). -/
structure PropSem where
  primExtract : PrimProp → GoCtx → Carrier → GoCtx

/-- Extract of a composite propagator: fold the members' Extract over the
context, as the OTel SDK's composite propagator does. The empty composite
returns the input context unchanged. -/
def extractProp (sem : PropSem) (p : PropagatorVal) (ctx : GoCtx) (car : Carrier) : GoCtx :=
  p.foldl (fun acc pr => sem.primExtract pr acc car) ctx

/-- An abstract tracer provider. `noopDefault` is the OTel global default
before any `otel.SetTracerProvider` call (its tracers record nothing);
`sdk` is an SDK provider built by `initInternalTracerProvider`;
`external` is a user-supplied provider, which may or may not record. -/
inductive TP where
  | noopDefault
  | sdk (id : Nat)
  | external (id : Nat) (recording : Bool)
  deriving DecidableEq, Repr

/-- A tracer, as returned by `TracerProvider.Tracer(name)`. -/
structure Tracer where
  provider : TP
  instName : String
  deriving DecidableEq, Repr

/-- Whether spans started from this tracer are recorded.
A tracer from the default (never-set) global provider records nothing. -/
def Tracer.recordsSpans (t : Tracer) : Bool :=
  match t.provider with
  | TP.noopDefault => false
  | TP.sdk _ => true
  | TP.external _ recording => recording

/-- otel.go: `ExporterOTLPGRPC ExporterType = "otlp_grpc"`. -/
def ExporterOTLPGRPC : String := "otlp_grpc"

/-- otel.go: `ExporterStdout ExporterType = "stdout"`. -/
def ExporterStdout : String := "stdout"

/-- otel.go: `ExporterNone ExporterType = "none"`. -/
def ExporterNone : String := "none"

/-- otel.go `Config`. `appLogger` models the nil-ness of `AppLogger`;
`samplerSet` models the nil-ness of `Sampler`; `shutdownTimeout` is in
nanoseconds (Go `time.Duration`), with `≤ 0` meaning unset. -/
structure Config where
  appLogger : Bool
  serviceName : String
  serviceVersion : String
  environment : String
  exporter : String
  otlpEndpoint : String
  otlpInsecure : Bool
  externalTracerProvider : Option TP
  externalSDKTracerProvider : Option TP
  propagator : Option PropagatorVal
  samplerSet : Bool
  shutdownTimeout : Int
  disabled : Bool
  deriving DecidableEq, Repr

/-- otel.go `Connector`: configuration (after defaulting), the internally
created SDK tracer provider if any (`tracerProvider` is non-nil exactly
when `initInternalTracerProvider` built it), the propagator instance, and
the no-op flag. -/
structure Connector where
  config : Config
  tracerProvider : Option TP
  propagator : Option PropagatorVal
  isNoOp : Bool
  deriving DecidableEq, Repr

/-- External state read and written by `New`: the Xylium run mode, the
outcomes of the fallible SDK constructor calls, and the process-global
OTel tracer provider and propagator. -/
structure World where
  releaseMode : Bool
  otlpExporterErr : Option String
  stdoutExporterErr : Option String
  resourceMergeErr : Option String
  globalTracerProvider : TP
  globalPropagator : Option PropagatorVal
  deriving DecidableEq, Repr

/-- otel.go line 89: default `ShutdownTimeout` of `5 * time.Second`, in ns. -/
def defaultShutdownTimeout : Int := 5000000000

/-- otel.go lines 79-87: the exporter actually used when the config leaves
`Exporter` empty — `ExporterNone` in Xylium release mode, `ExporterStdout`
otherwise. -/
def effectiveExporter (cfg : Config) (w : World) : String :=
  if cfg.exporter = "" then
    (if w.releaseMode then ExporterNone else ExporterStdout)
  else cfg.exporter

/-- otel.go lines 139-198, `initInternalTracerProvider`: construct the
exporter selected by the (already defaulted) config, then merge resources
and build the SDK tracer provider. Exporter construction and resource
merging are SDK calls whose outcomes come from the `World`. -/
def initInternalTracerProvider (cfg : Config) (w : World) : Except String TP :=
  if cfg.exporter = ExporterOTLPGRPC then
    if cfg.otlpEndpoint = "" then
      Except.error "xylium-otel: OTLPConfig.Endpoint is required for OTLP gRPC exporter"
    else
      match w.otlpExporterErr with
      | some e => Except.error ("creating OTLP gRPC exporter: " ++ e)
      | none =>
        match w.resourceMergeErr with
        | some e => Except.error ("creating resource: " ++ e)
        | none => Except.ok (TP.sdk 0)
  else if cfg.exporter = ExporterStdout then
    match w.stdoutExporterErr with
    | some e => Except.error ("creating stdout exporter: " ++ e)
    | none =>
      match w.resourceMergeErr with
      | some e => Except.error ("creating resource: " ++ e)
      | none => Except.ok (TP.sdk 0)
  else
    Except.error ("xylium-otel: unsupported exporter type for internal setup: " ++ cfg.exporter)

/-- otel.go lines 79-93: the config after `New` applies its defaults —
exporter by Xylium mode, shutdown timeout of 5s when unset, sampler
`ParentBased(AlwaysSample())` when unset. -/
def defaultedConfig (cfg : Config) (w : World) : Config :=
  { cfg with
    exporter := effectiveExporter cfg w,
    shutdownTimeout := if cfg.shutdownTimeout ≤ 0 then defaultShutdownTimeout else cfg.shutdownTimeout,
    samplerSet := true }

/-- otel.go lines 97-116: choose the tracer provider — external SDK
provider, then external provider, then an internally initialized one
(exporter not "none"), else none at all (connector becomes no-op and the
global provider is left unchanged). The first three branches set the
global provider. Returns the internally created provider (if any), the
no-op flag, and the updated world. -/
def chooseTracerProvider (cfg1 : Config) (w : World) : Except String (Option TP × Bool × World) :=
  match cfg1.externalSDKTracerProvider with
  | some p => Except.ok (none, false, { w with globalTracerProvider := p })
  | none =>
    match cfg1.externalTracerProvider with
    | some p => Except.ok (none, false, { w with globalTracerProvider := p })
    | none =>
      if cfg1.exporter ≠ ExporterNone then
        match initInternalTracerProvider cfg1 w with
        | Except.error e =>
          Except.error ("xylium-otel: failed to initialize internal TracerProvider: " ++ e)
        | Except.ok tp => Except.ok (some tp, false, { w with globalTracerProvider := tp })
      else
        Except.ok (none, true, w)

/-- otel.go lines 118-129: the propagator `New` installs — the configured
one, or the default composite of TraceContext and Baggage. -/
def defaultPropagatorFor (cfg1 : Config) : PropagatorVal :=
  match cfg1.propagator with
  | some p => p
  | none => [PrimProp.traceContext, PrimProp.baggage]

/-- otel.go lines 64-137, `New`:
1. `Disabled` short-circuits to a no-op connector before any validation.
2. Validate `AppLogger` and `ServiceName` (the latter only when no
   external provider is supplied).
3. Default the exporter, the shutdown timeout and the sampler.
4. Choose the tracer provider (`chooseTracerProvider`).
5. Install the configured or default propagator and set it globally. -/
def New (cfg : Config) (w : World) : Except String (Connector × World) :=
  if cfg.disabled then
    Except.ok ({ config := cfg, tracerProvider := none, propagator := none, isNoOp := true }, w)
  else if cfg.appLogger = false then
    Except.error "xylium-otel: Config.AppLogger is required"
  else if cfg.serviceName = "" ∧ cfg.externalTracerProvider = none ∧ cfg.externalSDKTracerProvider = none then
    Except.error "xylium-otel: Config.ServiceName is required when not providing an external TracerProvider or SDKTracerProvider"
  else
    match chooseTracerProvider (defaultedConfig cfg w) w with
    | Except.error e => Except.error e
    | Except.ok (tpInternal, noop, w1) =>
      Except.ok
        ({ config := defaultedConfig cfg w, tracerProvider := tpInternal,
           propagator := some (defaultPropagatorFor (defaultedConfig cfg w)), isNoOp := noop },
         { w1 with globalPropagator := some (defaultPropagatorFor (defaultedConfig cfg w)) })

/-- Whether `New` returned a connector (as opposed to an error). -/
def newSucceeds (cfg : Config) (w : World) : Bool :=
  match New cfg w with
  | Except.ok _ => true
  | Except.error _ => false

/-- otel.go lines 244-246: `IsNoOp`. -/
def Connector.IsNoOp (c : Connector) : Bool := c.isNoOp

/-- otel.go lines 200-205, `GetTracer`: in no-op mode it returns
`otel.GetTracerProvider().Tracer(name)`; otherwise `otel.Tracer(name)`,
which in the OTel SDK is exactly `otel.GetTracerProvider().Tracer(name)`.
Both branches therefore read the process-global tracer provider. -/
def Connector.GetTracer (c : Connector) (w : World) (instName : String) : Tracer :=
  if c.isNoOp then
    { provider := w.globalTracerProvider, instName := instName }
  else
    { provider := w.globalTracerProvider, instName := instName }

/-- otel.go lines 207-212, `Propagator`: a freshly built empty composite
propagator when the connector is no-op or holds no propagator; the stored
propagator otherwise. -/
def Connector.Propagator (c : Connector) : PropagatorVal :=
  if c.isNoOp ∨ c.propagator = none then []
  else c.propagator.getD []

/-- The externally observable shutdown work performed by `Close`:
either none, or a shutdown of the internally created provider bounded by
the given timeout. -/
inductive CloseAction where
  | noWork
  | shutdownInternal (timeout : Int)
  deriving DecidableEq, Repr

/-- otel.go lines 214-242, the shutdown work `Close` performs: nothing when
the connector is no-op or never created an internal provider; otherwise a
`Shutdown` of the internal provider under a context bounded by the
configured `ShutdownTimeout`. -/
def Connector.closeAction (c : Connector) : CloseAction :=
  if c.isNoOp then CloseAction.noWork
  else
    match c.tracerProvider with
    | some _ => CloseAction.shutdownInternal c.config.shutdownTimeout
    | none => CloseAction.noWork

/-- otel.go lines 214-242, the error `Close` returns. `shutdownErr` is the
result of `tracerProvider.Shutdown` (an SDK call), consulted only when an
internally created provider is actually shut down. -/
def Connector.Close (c : Connector) (shutdownErr : Option String) : Option String :=
  if c.isNoOp then none
  else
    match c.tracerProvider with
    | some _ =>
      match shutdownErr with
      | some e => some ("xylium-otel: tracer provider shutdown: " ++ e)
      | none => none
    | none => none

/-- OTel span status codes (`codes.Unset`, `codes.Error`, `codes.Ok`). -/
inductive StatusCode where
  | unset
  | error
  | ok
  deriving DecidableEq, Repr

/-- Numeric values of the `codes` package: Unset=0, Error=1, Ok=2. -/
def StatusCode.prio : StatusCode → Nat
  | StatusCode.unset => 0
  | StatusCode.error => 1
  | StatusCode.ok => 2

/-- The state of an SDK recording span: attributes set, errors recorded,
status, status description, and number of `End` calls received. -/
structure Span where
  attrs : List Attr
  recordedErrors : List String
  status : StatusCode
  statusDesc : String
  endCount : Nat
  deriving DecidableEq, Repr

/-- SDK `span.SetAttributes`: appends attributes. -/
def Span.setAttributes (s : Span) (more : List Attr) : Span :=
  { s with attrs := s.attrs ++ more }

/-- SDK `span.RecordError`: appends an error event. -/
def Span.recordError (s : Span) (e : String) : Span :=
  { s with recordedErrors := s.recordedErrors ++ [e] }

/-- SDK `span.SetStatus`: ignored when the new code has lower priority than
the current one; the description is kept only for Error. -/
def Span.setStatus (s : Span) (code : StatusCode) (desc : String) : Span :=
  if code.prio < s.status.prio then s
  else { s with status := code, statusDesc := if code = StatusCode.error then desc else "" }

/-- SDK `span.End`: counts the call. -/
def Span.endSpan (s : Span) : Span :=
  { s with endCount := s.endCount + 1 }

/-- A freshly started span (`tracer.Start` with initial attributes):
no recorded errors, status Unset, not yet ended. -/
def newSpan (attrs : List Attr) : Span :=
  { attrs := attrs, recordedErrors := [], status := StatusCode.unset, statusDesc := "", endCount := 0 }

/-- The span context of a started span, as read by the middleware
(`HasTraceID` / `HasSpanID` are the `isSome` of the fields). -/
structure SpanContext where
  traceID : Option String
  spanID : Option String
  deriving DecidableEq, Repr

/-- The Xylium request context, restricted to what the middleware reads
and writes: the Go context, the request-scoped key/value store, the
request line data and the request header. -/
structure XyliumCtx where
  goCtx : GoCtx
  store : List (String × String)
  method : String
  path : String
  scheme : String
  host : String
  query : String
  reqHeader : Carrier
  deriving DecidableEq, Repr

/-- The xylium-core store key for the request ID (an external constant of
xylium-core; only its identity matters here). -/
def ContextKeyRequestID : String := "request_id"

/-- The xylium-core store key under which the middleware publishes the
trace ID (external constant of xylium-core; only its identity matters). -/
def ContextKeyOtelTraceID : String := "otel_trace_id"

/-- The xylium-core store key under which the middleware publishes the
span ID (external constant of xylium-core; only its identity matters). -/
def ContextKeyOtelSpanID : String := "otel_span_id"

/-- middleware.go line 48: the default tracer name. -/
def defaultMiddlewareTracerName : String := "xylium.otel.middleware"

/-- middleware.go `MiddlewareConfig`. -/
structure MiddlewareConfig where
  tracerName : String := ""
  spanNameFormatter : Option (XyliumCtx → String) := none
  additionalAttributes : List Attr := []
  filter : Option (XyliumCtx → Bool) := none

/-- middleware.go lines 88-98: the default span name formatter. -/
def defaultSpanNameFormatter (c : XyliumCtx) : String :=
  if c.path = "" then "HTTP " ++ c.method
  else c.method ++ " " ++ c.path

/-- middleware.go lines 83-99: fill in the tracer name and span name
formatter defaults. The filter is left as configured. -/
def applyMwDefaults (cfg : MiddlewareConfig) : MiddlewareConfig :=
  { cfg with
    tracerName := if cfg.tracerName = "" then defaultMiddlewareTracerName else cfg.tracerName,
    spanNameFormatter := some (cfg.spanNameFormatter.getD defaultSpanNameFormatter) }

/-- middleware.go line 110: `cfg.Filter != nil && cfg.Filter(c)`. -/
def filterTriggered (cfg : MiddlewareConfig) (c : XyliumCtx) : Bool :=
  match cfg.filter with
  | some f => f c
  | none => false

/-- middleware.go lines 142-147: the `xylium.request_id` attribute, present
when the store holds a non-empty request ID string. -/
def requestIDAttr (c : XyliumCtx) : List Attr :=
  match c.store.lookup ContextKeyRequestID with
  | some rid => if rid ≠ "" then [("xylium.request_id", rid)] else []
  | none => []

/-- middleware.go lines 129-155: the initial server-span attributes. -/
def buildAttributes (conn : Connector) (cfg : MiddlewareConfig) (c : XyliumCtx) : List Attr :=
  [("http.request.method", c.method),
   ("url.scheme", c.scheme),
   ("server.address", c.host),
   ("url.path", c.path),
   ("http.route", c.path)]
  ++ (if c.query ≠ "" then [("url.query", c.query)] else [])
  ++ requestIDAttr c
  ++ cfg.additionalAttributes
  ++ (if conn.config.environment ≠ "" then [("deployment.environment", conn.config.environment)] else [])

/-- Span lifecycle events observable from outside the middleware. -/
inductive Event where
  | spanStart
  | spanEnd
  deriving DecidableEq, Repr

/-- Everything externally observable about one middleware invocation. -/
structure RunResult where
  returnedErr : Option String
  events : List Event
  handlerCtxs : List XyliumCtx
  mwWrites : List (String × String)
  finalSpan : Option Span
  finalStatus : Int
  deriving DecidableEq, Repr

/-- middleware.go lines 70-74 and 110-115: the pass-through behaviour —
the inner handler runs on the unmodified context, no span is started, no
store keys are written, and its error is returned unchanged. -/
def passThrough (next : XyliumCtx → Option String × Int) (c : XyliumCtx) : RunResult :=
  { returnedErr := (next c).1, events := [], handlerCtxs := [c],
    mwWrites := [], finalSpan := none, finalStatus := (next c).2 }

/-- middleware.go lines 117-164: extract the propagated parent context from
the request header and start the server span, returning the traced Go
context and the new span's span context. `start` is the abstract
`tracer.Start` of the SDK. -/
def tracedStart (conn : Connector) (cfg : MiddlewareConfig) (sem : PropSem)
    (start : GoCtx → String → List Attr → GoCtx × SpanContext) (c : XyliumCtx) :
    GoCtx × SpanContext :=
  let propagatedCtx := extractProp sem conn.Propagator c.goCtx c.reqHeader
  let spanName := (cfg.spanNameFormatter.getD defaultSpanNameFormatter) c
  start propagatedCtx spanName (buildAttributes conn cfg c)

/-- middleware.go lines 167-174: the store writes the middleware performs —
the trace ID and span ID keys, each written only when the span context has
the corresponding ID (in source call order). -/
def mwWritesFor (sc : SpanContext) : List (String × String) :=
  (match sc.traceID with
   | some t => [(ContextKeyOtelTraceID, t)]
   | none => [])
  ++
  (match sc.spanID with
   | some s => [(ContextKeyOtelSpanID, s)]
   | none => [])

/-- middleware.go lines 167-178: the Xylium context the inner handler is
invoked with: the original context with the middleware's store writes
applied (most recent first, as `c.Set` prepends in this model) and the Go
context replaced by the span-enriched one. -/
def tracedHandlerCtx (conn : Connector) (cfg : MiddlewareConfig) (sem : PropSem)
    (start : GoCtx → String → List Attr → GoCtx × SpanContext) (c : XyliumCtx) : XyliumCtx :=
  let st := tracedStart conn cfg sem start c
  { c with store := (mwWritesFor st.2).reverse ++ c.store, goCtx := st.1 }

/-- middleware.go lines 184-199 plus the deferred `span.End()` (line 165):
record the response status attribute; on a handler error record the error
and set status Error with the error text; otherwise set status Error for a
5xx response; then end the span. -/
def finalizeSpan (err : Option String) (statusCode : Int) (s : Span) : Span :=
  let s1 := s.setAttributes [("http.response.status_code", toString statusCode)]
  let s2 :=
    match err with
    | some e => (s1.recordError e).setStatus StatusCode.error e
    | none =>
      if 500 ≤ statusCode then
        s1.setStatus StatusCode.error ("HTTP server error: status code " ++ toString statusCode)
      else s1
  s2.endSpan

/-- middleware.go lines 117-202: the traced path of the middleware body.
`next` is the wrapped inner handler; it yields the error it returns and
the response status code observed after it ran. -/
def tracedRun (conn : Connector) (cfg : MiddlewareConfig) (sem : PropSem)
    (start : GoCtx → String → List Attr → GoCtx × SpanContext)
    (next : XyliumCtx → Option String × Int) (c : XyliumCtx) : RunResult :=
  let c' := tracedHandlerCtx conn cfg sem start c
  let outcome := next c'
  { returnedErr := outcome.1,
    events := [Event.spanStart, Event.spanEnd],
    handlerCtxs := [c'],
    mwWrites := mwWritesFor (tracedStart conn cfg sem start c).2,
    finalSpan := some (finalizeSpan outcome.1 outcome.2 (newSpan (buildAttributes conn cfg c))),
    finalStatus := outcome.2 }

/-- middleware.go lines 63-204, `OtelMiddleware` applied to one request:
a no-op connector yields a pass-through closure; otherwise the middleware
config is defaulted, the filter may bypass tracing, and otherwise the
traced path runs. -/
def runOtelMiddleware (conn : Connector) (mwCustomCfg : Option MiddlewareConfig) (sem : PropSem)
    (start : GoCtx → String → List Attr → GoCtx × SpanContext)
    (next : XyliumCtx → Option String × Int) (c : XyliumCtx) : RunResult :=
  if conn.IsNoOp then passThrough next c
  else
    let cfg := applyMwDefaults (mwCustomCfg.getD {})
    if filterTriggered cfg c then passThrough next c
    else tracedRun conn cfg sem start next c

/-! ### Helper lemmas about the middleware embedding -/

theorem runOtelMiddleware_eq (conn : Connector) (mwCustomCfg : Option MiddlewareConfig)
    (sem : PropSem) (start : GoCtx → String → List Attr → GoCtx × SpanContext)
    (next : XyliumCtx → Option String × Int) (c : XyliumCtx) :
    runOtelMiddleware conn mwCustomCfg sem start next c =
      if conn.IsNoOp then passThrough next c
      else if filterTriggered (applyMwDefaults (mwCustomCfg.getD {})) c then passThrough next c
      else tracedRun conn (applyMwDefaults (mwCustomCfg.getD {})) sem start next c := rfl

theorem tracedRun_returnedErr (conn : Connector) (cfg : MiddlewareConfig) (sem : PropSem)
    (start : GoCtx → String → List Attr → GoCtx × SpanContext)
    (next : XyliumCtx → Option String × Int) (c : XyliumCtx) :
    (tracedRun conn cfg sem start next c).returnedErr =
      (next (tracedHandlerCtx conn cfg sem start c)).1 := rfl

theorem tracedRun_finalStatus (conn : Connector) (cfg : MiddlewareConfig) (sem : PropSem)
    (start : GoCtx → String → List Attr → GoCtx × SpanContext)
    (next : XyliumCtx → Option String × Int) (c : XyliumCtx) :
    (tracedRun conn cfg sem start next c).finalStatus =
      (next (tracedHandlerCtx conn cfg sem start c)).2 := rfl

theorem tracedRun_finalSpan (conn : Connector) (cfg : MiddlewareConfig) (sem : PropSem)
    (start : GoCtx → String → List Attr → GoCtx × SpanContext)
    (next : XyliumCtx → Option String × Int) (c : XyliumCtx) :
    (tracedRun conn cfg sem start next c).finalSpan =
      some (finalizeSpan (next (tracedHandlerCtx conn cfg sem start c)).1
        (next (tracedHandlerCtx conn cfg sem start c)).2
        (newSpan (buildAttributes conn cfg c))) := rfl

theorem tracedRun_events (conn : Connector) (cfg : MiddlewareConfig) (sem : PropSem)
    (start : GoCtx → String → List Attr → GoCtx × SpanContext)
    (next : XyliumCtx → Option String × Int) (c : XyliumCtx) :
    (tracedRun conn cfg sem start next c).events = [Event.spanStart, Event.spanEnd] := rfl

theorem tracedRun_handlerCtxs (conn : Connector) (cfg : MiddlewareConfig) (sem : PropSem)
    (start : GoCtx → String → List Attr → GoCtx × SpanContext)
    (next : XyliumCtx → Option String × Int) (c : XyliumCtx) :
    (tracedRun conn cfg sem start next c).handlerCtxs =
      [tracedHandlerCtx conn cfg sem start c] := rfl

theorem setStatus_endCount (s : Span) (code : StatusCode) (desc : String) :
    (Span.setStatus s code desc).endCount = s.endCount := by
  unfold Span.setStatus
  split <;> rfl

theorem setStatus_recordedErrors (s : Span) (code : StatusCode) (desc : String) :
    (Span.setStatus s code desc).recordedErrors = s.recordedErrors := by
  unfold Span.setStatus
  split <;> rfl

theorem finalizeSpan_err (attrs : List Attr) (e : String) (sc : Int) :
    (finalizeSpan (some e) sc (newSpan attrs)).recordedErrors = [e] ∧
    (finalizeSpan (some e) sc (newSpan attrs)).status = StatusCode.error ∧
    (finalizeSpan (some e) sc (newSpan attrs)).statusDesc = e := by
  refine ⟨?_, ?_, ?_⟩ <;>
    simp [finalizeSpan, newSpan, Span.setAttributes, Span.recordError, Span.setStatus,
      Span.endSpan, StatusCode.prio]

theorem finalizeSpan_noErr_ge (attrs : List Attr) (sc : Int) (h : 500 ≤ sc) :
    (finalizeSpan none sc (newSpan attrs)).status = StatusCode.error ∧
    (finalizeSpan none sc (newSpan attrs)).recordedErrors = [] := by
  refine ⟨?_, ?_⟩ <;>
    simp [finalizeSpan, newSpan, Span.setAttributes, Span.setStatus, Span.endSpan,
      StatusCode.prio, h]

theorem finalizeSpan_noErr_lt (attrs : List Attr) (sc : Int) (h : sc < 500) :
    (finalizeSpan none sc (newSpan attrs)).status = StatusCode.unset ∧
    (finalizeSpan none sc (newSpan attrs)).recordedErrors = [] := by
  have h' : ¬ (500 ≤ sc) := not_le.mpr h
  refine ⟨?_, ?_⟩ <;>
    simp [finalizeSpan, newSpan, Span.setAttributes, Span.setStatus, Span.endSpan,
      StatusCode.prio, h']

theorem finalizeSpan_endCount (err : Option String) (sc : Int) (attrs : List Attr) :
    (finalizeSpan err sc (newSpan attrs)).endCount = 1 := by
  cases err with
  | some e =>
    simp [finalizeSpan, newSpan, Span.setAttributes, Span.recordError, Span.endSpan,
      setStatus_endCount]
  | none =>
    by_cases h : (500 : Int) ≤ sc <;>
      simp [finalizeSpan, newSpan, Span.setAttributes, Span.endSpan, setStatus_endCount, h]

/-! ### Claims about the middleware (middleware.go) -/

/-- C1: for every traced request (connector not no-op, filter absent or
false), after the inner handler returns the span is finalized exactly so:
a handler error is recorded on the span and the status set to Error with
the error text; with no handler error and a status code of 500 or more the
status is Error with no recorded error; with no handler error and a status
code below 500 the status stays Unset and nothing is recorded. -/
theorem c1_span_status (conn : Connector) (mwCfg : Option MiddlewareConfig)
    (sem : PropSem) (start : GoCtx → String → List Attr → GoCtx × SpanContext)
    (next : XyliumCtx → Option String × Int) (c : XyliumCtx)
    (hNoOp : conn.IsNoOp = false)
    (hFilter : filterTriggered (applyMwDefaults (mwCfg.getD {})) c = false) :
    ∃ s, (runOtelMiddleware conn mwCfg sem start next c).finalSpan = some s ∧
      (∀ e, (runOtelMiddleware conn mwCfg sem start next c).returnedErr = some e →
        s.recordedErrors = [e] ∧ s.status = StatusCode.error ∧ s.statusDesc = e) ∧
      ((runOtelMiddleware conn mwCfg sem start next c).returnedErr = none →
        500 ≤ (runOtelMiddleware conn mwCfg sem start next c).finalStatus →
        s.status = StatusCode.error ∧ s.recordedErrors = []) ∧
      ((runOtelMiddleware conn mwCfg sem start next c).returnedErr = none →
        (runOtelMiddleware conn mwCfg sem start next c).finalStatus < 500 →
        s.status = StatusCode.unset ∧ s.recordedErrors = []) := by
  have hrw : runOtelMiddleware conn mwCfg sem start next c =
      tracedRun conn (applyMwDefaults (mwCfg.getD {})) sem start next c := by
    rw [runOtelMiddleware_eq, hNoOp, hFilter]
    simp
  rw [hrw, tracedRun_finalSpan, tracedRun_returnedErr, tracedRun_finalStatus]
  rcases hnext : next (tracedHandlerCtx conn (applyMwDefaults (mwCfg.getD {})) sem start c)
    with ⟨err, sc⟩
  refine ⟨finalizeSpan err sc (newSpan (buildAttributes conn (applyMwDefaults (mwCfg.getD {})) c)),
    rfl, ?_, ?_, ?_⟩
  · intro e he
    simp at he
    subst he
    exact finalizeSpan_err _ e sc
  · intro hnone hge
    simp at hnone hge
    subst hnone
    exact finalizeSpan_noErr_ge _ sc hge
  · intro hnone hlt
    simp at hnone hlt
    subst hnone
    exact finalizeSpan_noErr_lt _ sc hlt

/-- C2: for every traced request (connector not no-op, filter absent or
false), exactly one span is started and that span is ended exactly once
before the middleware returns, on every exit path. -/
theorem c2_span_lifecycle (conn : Connector) (mwCfg : Option MiddlewareConfig)
    (sem : PropSem) (start : GoCtx → String → List Attr → GoCtx × SpanContext)
    (next : XyliumCtx → Option String × Int) (c : XyliumCtx)
    (hNoOp : conn.IsNoOp = false)
    (hFilter : filterTriggered (applyMwDefaults (mwCfg.getD {})) c = false) :
    (runOtelMiddleware conn mwCfg sem start next c).events = [Event.spanStart, Event.spanEnd] ∧
    ∃ s, (runOtelMiddleware conn mwCfg sem start next c).finalSpan = some s ∧ s.endCount = 1 := by
  have hrw : runOtelMiddleware conn mwCfg sem start next c =
      tracedRun conn (applyMwDefaults (mwCfg.getD {})) sem start next c := by
    rw [runOtelMiddleware_eq, hNoOp, hFilter]
    simp
  rw [hrw, tracedRun_events, tracedRun_finalSpan]
  exact ⟨rfl, _, rfl, finalizeSpan_endCount _ _ _⟩

/-- C3: in every branch of the middleware (no-op pass-through, filter
bypass, full tracing path) the inner handler is invoked exactly once and
the value the middleware returns is exactly the handler's error (or nil),
unchanged — the middleware itself never produces an error. -/
theorem c3_error_passthrough (conn : Connector) (mwCfg : Option MiddlewareConfig)
    (sem : PropSem) (start : GoCtx → String → List Attr → GoCtx × SpanContext)
    (next : XyliumCtx → Option String × Int) (c : XyliumCtx) :
    ∃ c0, (runOtelMiddleware conn mwCfg sem start next c).handlerCtxs = [c0] ∧
      (runOtelMiddleware conn mwCfg sem start next c).returnedErr = (next c0).1 := by
  rw [runOtelMiddleware_eq]
  by_cases h1 : conn.IsNoOp
  · exact ⟨c, by simp [h1, passThrough]⟩
  · by_cases h2 : filterTriggered (applyMwDefaults (mwCfg.getD {})) c
    · exact ⟨c, by simp [h1, h2, passThrough]⟩
    · refine ⟨tracedHandlerCtx conn (applyMwDefaults (mwCfg.getD {})) sem start c, ?_⟩
      simp [h1, h2, tracedRun_handlerCtxs, tracedRun_returnedErr]

/-- C4: whenever tracing is bypassed — filter true for the request, or the
connector is no-op — the middleware is a pure pass-through: the inner
handler runs with the request context unmodified, no span is started, and
no trace-id/span-id keys are written into the request-scoped store. -/
theorem c4_bypass_passthrough (conn : Connector) (mwCfg : Option MiddlewareConfig)
    (sem : PropSem) (start : GoCtx → String → List Attr → GoCtx × SpanContext)
    (next : XyliumCtx → Option String × Int) (c : XyliumCtx)
    (h : conn.IsNoOp = true ∨ filterTriggered (applyMwDefaults (mwCfg.getD {})) c = true) :
    runOtelMiddleware conn mwCfg sem start next c = passThrough next c ∧
    (runOtelMiddleware conn mwCfg sem start next c).handlerCtxs = [c] ∧
    (runOtelMiddleware conn mwCfg sem start next c).events = [] ∧
    (runOtelMiddleware conn mwCfg sem start next c).mwWrites = [] ∧
    (runOtelMiddleware conn mwCfg sem start next c).finalSpan = none ∧
    (runOtelMiddleware conn mwCfg sem start next c).returnedErr = (next c).1 := by
  have hpt : runOtelMiddleware conn mwCfg sem start next c = passThrough next c := by
    rw [runOtelMiddleware_eq]
    rcases h with h | h
    · simp [h]
    · by_cases h1 : conn.IsNoOp
      · simp [h1]
      · simp [h1, h]
  rw [hpt]
  exact ⟨rfl, rfl, rfl, rfl, rfl, rfl⟩

/-! ### Concrete instances used by witnesses and counterexamples -/

/-- A world in its initial state: debug mode, all SDK calls succeed, the
global tracer provider was never set. -/
def world0 : World :=
  { releaseMode := false, otlpExporterErr := none, stdoutExporterErr := none,
    resourceMergeErr := none, globalTracerProvider := TP.noopDefault, globalPropagator := none }

/-- A configuration selecting the stdout exporter. -/
def stdoutCfg : Config :=
  { appLogger := true, serviceName := "svc", serviceVersion := "", environment := "",
    exporter := ExporterStdout, otlpEndpoint := "", otlpInsecure := false,
    externalTracerProvider := none, externalSDKTracerProvider := none, propagator := none,
    samplerSet := false, shutdownTimeout := 0, disabled := false }

/-- The active connector `New stdoutCfg world0` produces. -/
def connActive : Connector :=
  { config := defaultedConfig stdoutCfg world0, tracerProvider := some (TP.sdk 0),
    propagator := some [PrimProp.traceContext, PrimProp.baggage], isNoOp := false }

/-- The world after `New stdoutCfg world0`: global provider and propagator set. -/
def world1 : World :=
  { world0 with
    globalTracerProvider := TP.sdk 0,
    globalPropagator := some [PrimProp.traceContext, PrimProp.baggage] }

theorem new_stdout : New stdoutCfg world0 = Except.ok (connActive, world1) := rfl

/-- A configuration with the disabled flag set and everything else missing
or unusual (no logger, no service name, a custom propagator). -/
def disabledCfg : Config :=
  { appLogger := false, serviceName := "", serviceVersion := "", environment := "",
    exporter := "", otlpEndpoint := "", otlpInsecure := false,
    externalTracerProvider := none, externalSDKTracerProvider := none,
    propagator := some [PrimProp.custom 7], samplerSet := false,
    shutdownTimeout := 0, disabled := true }

/-- The no-op connector `New disabledCfg world0` produces. -/
def connNoOp : Connector :=
  { config := disabledCfg, tracerProvider := none, propagator := none, isNoOp := true }

theorem new_disabled : New disabledCfg world0 = Except.ok (connNoOp, world0) := rfl

/-- Concrete propagator semantics for witnesses. -/
def semW : PropSem := { primExtract := fun _ ctx _ => ctx + 1 }

/-- Concrete `tracer.Start` behaviour for witnesses: enrich the context and
return a span context with both IDs. -/
def startW : GoCtx → String → List Attr → GoCtx × SpanContext :=
  fun g _ _ =>
    (g + 10, { traceID := some "4bf92f3577b34da6a3ce929d0e0e4736", spanID := some "00f067aa0ba902b7" })

/-- A concrete request context. -/
def ctxW : XyliumCtx :=
  { goCtx := 0, store := [], method := "GET", path := "/users", scheme := "http",
    host := "localhost:8080", query := "", reqHeader := [] }

/-- An inner handler that fails. -/
def nextErr : XyliumCtx → Option String × Int := fun _ => (some "handler failed", 500)

/-- An inner handler that succeeds with HTTP 200. -/
def nextOk : XyliumCtx → Option String × Int := fun _ => (none, 200)

/-- A middleware config whose filter skips every request. -/
def filterAllCfg : MiddlewareConfig := { filter := some (fun _ => true) }

/-- Witness for C1 at a concrete traced request. -/
theorem c1_span_status_witness :
    ∃ s, (runOtelMiddleware connActive none semW startW nextErr ctxW).finalSpan = some s ∧
      (∀ e, (runOtelMiddleware connActive none semW startW nextErr ctxW).returnedErr = some e →
        s.recordedErrors = [e] ∧ s.status = StatusCode.error ∧ s.statusDesc = e) ∧
      ((runOtelMiddleware connActive none semW startW nextErr ctxW).returnedErr = none →
        500 ≤ (runOtelMiddleware connActive none semW startW nextErr ctxW).finalStatus →
        s.status = StatusCode.error ∧ s.recordedErrors = []) ∧
      ((runOtelMiddleware connActive none semW startW nextErr ctxW).returnedErr = none →
        (runOtelMiddleware connActive none semW startW nextErr ctxW).finalStatus < 500 →
        s.status = StatusCode.unset ∧ s.recordedErrors = []) :=
  c1_span_status connActive none semW startW nextErr ctxW rfl rfl

/-- Witness for C2 at a concrete traced request. -/
theorem c2_span_lifecycle_witness :
    (runOtelMiddleware connActive none semW startW nextOk ctxW).events =
      [Event.spanStart, Event.spanEnd] ∧
    ∃ s, (runOtelMiddleware connActive none semW startW nextOk ctxW).finalSpan = some s ∧
      s.endCount = 1 :=
  c2_span_lifecycle connActive none semW startW nextOk ctxW rfl rfl

/-- Witness for C4 at concrete requests: once through a no-op connector,
once through an active connector whose filter rejects the request. -/
theorem c4_bypass_passthrough_witness :
    ((runOtelMiddleware connNoOp none semW startW nextOk ctxW).handlerCtxs = [ctxW] ∧
     (runOtelMiddleware connNoOp none semW startW nextOk ctxW).events = [] ∧
     (runOtelMiddleware connNoOp none semW startW nextOk ctxW).mwWrites = []) ∧
    ((runOtelMiddleware connActive (some filterAllCfg) semW startW nextOk ctxW).handlerCtxs = [ctxW] ∧
     (runOtelMiddleware connActive (some filterAllCfg) semW startW nextOk ctxW).events = [] ∧
     (runOtelMiddleware connActive (some filterAllCfg) semW startW nextOk ctxW).mwWrites = []) := by
  have h1 := c4_bypass_passthrough connNoOp none semW startW nextOk ctxW (Or.inl rfl)
  have h2 := c4_bypass_passthrough connActive (some filterAllCfg) semW startW nextOk ctxW (Or.inr rfl)
  exact ⟨⟨h1.2.1, h1.2.2.1, h1.2.2.2.1⟩, ⟨h2.2.1, h2.2.2.1, h2.2.2.2.1⟩⟩

/-! ### Helper lemmas about New -/

theorem defaultedConfig_exporter (cfg : Config) (w : World) :
    (defaultedConfig cfg w).exporter = effectiveExporter cfg w := rfl

theorem defaultedConfig_externalTracerProvider (cfg : Config) (w : World) :
    (defaultedConfig cfg w).externalTracerProvider = cfg.externalTracerProvider := rfl

theorem defaultedConfig_externalSDKTracerProvider (cfg : Config) (w : World) :
    (defaultedConfig cfg w).externalSDKTracerProvider = cfg.externalSDKTracerProvider := rfl

theorem defaultedConfig_otlpEndpoint (cfg : Config) (w : World) :
    (defaultedConfig cfg w).otlpEndpoint = cfg.otlpEndpoint := rfl

theorem defaultedConfig_shutdownTimeout_pos (cfg : Config) (w : World) :
    0 < (defaultedConfig cfg w).shutdownTimeout := by
  unfold defaultedConfig
  by_cases h : cfg.shutdownTimeout ≤ 0
  · simp [h]
    norm_num [defaultShutdownTimeout]
  · simp [h]
    omega

theorem chooseTracerProvider_noop_iff (cfg1 : Config) (w : World) (tpI : Option TP)
    (noop : Bool) (w1 : World)
    (h : chooseTracerProvider cfg1 w = Except.ok (tpI, noop, w1)) :
    noop = true ↔
      (cfg1.exporter = ExporterNone ∧ cfg1.externalTracerProvider = none ∧
       cfg1.externalSDKTracerProvider = none) := by
  unfold chooseTracerProvider at h
  cases hsdk : cfg1.externalSDKTracerProvider with
  | some p =>
    rw [hsdk] at h
    simp at h
    obtain ⟨-, h2, -⟩ := h
    subst h2
    simp [hsdk]
  | none =>
    rw [hsdk] at h
    cases hext : cfg1.externalTracerProvider with
    | some p =>
      rw [hext] at h
      simp at h
      obtain ⟨-, h2, -⟩ := h
      subst h2
      simp [hext]
    | none =>
      rw [hext] at h
      by_cases hexp : cfg1.exporter = ExporterNone
      · simp [hexp] at h
        obtain ⟨-, h2, -⟩ := h
        subst h2
        simp [hexp, hext, hsdk]
      · simp [hexp] at h
        cases hinit : initInternalTracerProvider cfg1 w with
        | error e =>
          rw [hinit] at h
          simp at h
        | ok tp =>
          rw [hinit] at h
          simp at h
          obtain ⟨-, h2, -⟩ := h
          subst h2
          simp [hexp]

theorem new_ok_cases (cfg : Config) (w : World) (c : Connector) (w' : World)
    (h : New cfg w = Except.ok (c, w')) :
    (cfg.disabled = true ∧
      c = { config := cfg, tracerProvider := none, propagator := none, isNoOp := true } ∧
      w' = w)
    ∨ (cfg.disabled = false ∧
       ∃ tpI noop w1, chooseTracerProvider (defaultedConfig cfg w) w = Except.ok (tpI, noop, w1) ∧
         c = { config := defaultedConfig cfg w, tracerProvider := tpI,
               propagator := some (defaultPropagatorFor (defaultedConfig cfg w)),
               isNoOp := noop }) := by
  unfold New at h
  by_cases hd : cfg.disabled = true
  · left
    simp [hd] at h
    exact ⟨hd, h.1.symm, h.2.symm⟩
  · right
    have hd' : cfg.disabled = false := by simpa using hd
    simp only [hd', Bool.false_eq_true, if_false] at h
    by_cases ha : cfg.appLogger = false
    · rw [if_pos ha] at h
      simp at h
    · rw [if_neg ha] at h
      by_cases hs : (cfg.serviceName = "" ∧ cfg.externalTracerProvider = none ∧
          cfg.externalSDKTracerProvider = none)
      · rw [if_pos hs] at h
        simp at h
      · rw [if_neg hs] at h
        cases hcore : chooseTracerProvider (defaultedConfig cfg w) w with
        | error e =>
          rw [hcore] at h
          simp at h
        | ok trip =>
          obtain ⟨tpI, noop, w1⟩ := trip
          rw [hcore] at h
          simp at h
          exact ⟨hd', tpI, noop, w1, rfl, h.1.symm⟩

/-! ### Claims about the connector (otel.go) -/

/-- C5: for every configuration on which New succeeds, the connector is
no-op exactly when the configuration explicitly disables tracing, or the
effective exporter is "none" and no external tracer provider (of either
kind) was supplied. -/
theorem c5_isnoop_iff (cfg : Config) (w : World) (c : Connector) (w' : World)
    (h : New cfg w = Except.ok (c, w')) :
    c.IsNoOp = true ↔
      (cfg.disabled = true ∨
        (effectiveExporter cfg w = ExporterNone ∧ cfg.externalTracerProvider = none ∧
         cfg.externalSDKTracerProvider = none)) := by
  rcases new_ok_cases cfg w c w' h with ⟨hd, hc, -⟩ | ⟨hd, tpI, noop, w1, hcore, hc⟩
  · subst hc
    simp [Connector.IsNoOp, hd]
  · subst hc
    have hiff := chooseTracerProvider_noop_iff _ _ _ _ _ hcore
    simp only [Connector.IsNoOp]
    rw [hiff, defaultedConfig_exporter, defaultedConfig_externalTracerProvider,
      defaultedConfig_externalSDKTracerProvider]
    simp [hd]

/-- Witness for C5 at a concrete succeeding configuration. -/
theorem c5_isnoop_iff_witness :
    connActive.IsNoOp = true ↔
      (stdoutCfg.disabled = true ∨
        (effectiveExporter stdoutCfg world0 = ExporterNone ∧
         stdoutCfg.externalTracerProvider = none ∧
         stdoutCfg.externalSDKTracerProvider = none)) :=
  c5_isnoop_iff stdoutCfg world0 connActive world1 rfl

/-- C9: if the disabled flag is set, New succeeds with a no-op connector
without performing any validation — the disabled check precedes all
validation checks. -/
theorem c9_disabled_skips_validation (cfg : Config) (w : World) (h : cfg.disabled = true) :
    New cfg w =
      Except.ok ({ config := cfg, tracerProvider := none, propagator := none, isNoOp := true }, w) := by
  simp [New, h]

/-- Witness for C9: a disabled configuration with a nil logger, empty
service name and no external provider still constructs a no-op connector. -/
theorem c9_disabled_skips_validation_witness :
    disabledCfg.appLogger = false ∧ disabledCfg.serviceName = "" ∧
    disabledCfg.externalTracerProvider = none ∧ disabledCfg.externalSDKTracerProvider = none ∧
    New disabledCfg world0 =
      Except.ok ({ config := disabledCfg, tracerProvider := none, propagator := none,
                   isNoOp := true }, world0) :=
  ⟨rfl, rfl, rfl, rfl, c9_disabled_skips_validation disabledCfg world0 rfl⟩

/-- A configuration with an external SDK tracer provider, the OTLP gRPC
exporter selected and no endpoint configured. -/
def extOtlpCfg : Config :=
  { appLogger := true, serviceName := "", serviceVersion := "", environment := "",
    exporter := ExporterOTLPGRPC, otlpEndpoint := "", otlpInsecure := false,
    externalTracerProvider := none, externalSDKTracerProvider := some (TP.external 1 true),
    propagator := none, samplerSet := false, shutdownTimeout := 0, disabled := false }

/-- C6 counterexample: New does NOT return an error in two cases the claim
covers — with a nil AppLogger but Disabled set, and with the OTLP gRPC
exporter selected and no endpoint but an external SDK provider supplied.
In both cases New succeeds. -/
theorem c6_counterexample :
    (disabledCfg.appLogger = false ∧ newSucceeds disabledCfg world0 = true) ∧
    (extOtlpCfg.exporter = ExporterOTLPGRPC ∧ extOtlpCfg.otlpEndpoint = "" ∧
      newSucceeds extOtlpCfg world0 = true) :=
  ⟨⟨rfl, rfl⟩, ⟨rfl, rfl, rfl⟩⟩

/-- C6 (amended): provided Disabled is false, New returns an error (and no
Connector) when AppLogger is missing; when ServiceName is absent and no
external provider was supplied; when no external provider was supplied and
the chosen exporter cannot be constructed (the internal tracer-provider
initialization fails for any reason — exporter construction or resource
merge); and in particular when no external provider was supplied, the OTLP
gRPC exporter is selected and no endpoint is configured. -/
theorem c6_new_error_conditions (cfg : Config) (w : World) (hd : cfg.disabled = false) :
    (cfg.appLogger = false → newSucceeds cfg w = false) ∧
    (cfg.serviceName = "" → cfg.externalTracerProvider = none →
      cfg.externalSDKTracerProvider = none → newSucceeds cfg w = false) ∧
    (cfg.externalTracerProvider = none → cfg.externalSDKTracerProvider = none →
      effectiveExporter cfg w ≠ ExporterNone →
      ∀ e, initInternalTracerProvider (defaultedConfig cfg w) w = Except.error e →
        newSucceeds cfg w = false) ∧
    (cfg.externalTracerProvider = none → cfg.externalSDKTracerProvider = none →
      cfg.exporter = ExporterOTLPGRPC → cfg.otlpEndpoint = "" →
      newSucceeds cfg w = false) := by
  refine ⟨?_, ?_, ?_, ?_⟩
  · intro ha
    simp [newSucceeds, New, hd, ha]
  · intro hs he1 he2
    by_cases ha : cfg.appLogger = false
    · simp [newSucceeds, New, hd, ha]
    · simp [newSucceeds, New, hd, ha, hs, he1, he2]
  · intro he1 he2 hexpNone e hinitErr
    by_cases ha : cfg.appLogger = false
    · simp [newSucceeds, New, hd, ha]
    · by_cases hs : cfg.serviceName = ""
      · simp [newSucceeds, New, hd, ha, hs, he1, he2]
      · have hchoose : chooseTracerProvider (defaultedConfig cfg w) w =
            Except.error ("xylium-otel: failed to initialize internal TracerProvider: " ++ e) := by
          unfold chooseTracerProvider
          rw [defaultedConfig_externalSDKTracerProvider, he2,
            defaultedConfig_externalTracerProvider, he1]
          have hne : (defaultedConfig cfg w).exporter ≠ ExporterNone := by
            rw [defaultedConfig_exporter]
            exact hexpNone
          rw [if_pos hne, hinitErr]
        simp [newSucceeds, New, hd, ha, hs, he1, he2, hchoose]
  · intro he1 he2 hexp hend
    by_cases ha : cfg.appLogger = false
    · simp [newSucceeds, New, hd, ha]
    · by_cases hs : cfg.serviceName = ""
      · simp [newSucceeds, New, hd, ha, hs, he1, he2]
      · have heff : effectiveExporter cfg w = ExporterOTLPGRPC := by
          unfold effectiveExporter
          rw [hexp]
          rfl
        have hchoose : chooseTracerProvider (defaultedConfig cfg w) w =
            Except.error ("xylium-otel: failed to initialize internal TracerProvider: " ++
              "xylium-otel: OTLPConfig.Endpoint is required for OTLP gRPC exporter") := by
          unfold chooseTracerProvider
          rw [defaultedConfig_externalSDKTracerProvider, he2,
            defaultedConfig_externalTracerProvider, he1]
          have hne : (defaultedConfig cfg w).exporter ≠ ExporterNone := by
            rw [defaultedConfig_exporter, heff]
            decide
          rw [if_pos hne]
          have hinit : initInternalTracerProvider (defaultedConfig cfg w) w =
              Except.error "xylium-otel: OTLPConfig.Endpoint is required for OTLP gRPC exporter" := by
            unfold initInternalTracerProvider
            rw [defaultedConfig_exporter, heff, defaultedConfig_otlpEndpoint, hend]
            rfl
          rw [hinit]
        simp [newSucceeds, New, hd, ha, hs, he1, he2, hchoose]

/-- A non-disabled configuration missing everything at once: no logger,
no service name, no external provider, OTLP gRPC exporter, no endpoint. -/
def noLoggerOtlpCfg : Config :=
  { appLogger := false, serviceName := "", serviceVersion := "", environment := "",
    exporter := ExporterOTLPGRPC, otlpEndpoint := "", otlpInsecure := false,
    externalTracerProvider := none, externalSDKTracerProvider := none,
    propagator := none, samplerSet := false, shutdownTimeout := 0, disabled := false }

/-- A world in which the stdout exporter constructor fails. -/
def worldStdoutFail : World :=
  { world0 with stdoutExporterErr := some "stdout construction failed" }

/-- Witness for C6 (amended) at concrete inputs: a non-disabled config
with no logger, no service name, no external provider, the OTLP gRPC
exporter and no endpoint fails the first, second and fourth way; a valid
stdout config in a world where the exporter constructor fails exercises
the general exporter-cannot-be-constructed condition. -/
theorem c6_new_error_conditions_witness :
    newSucceeds noLoggerOtlpCfg world0 = false ∧
    newSucceeds noLoggerOtlpCfg world0 = false ∧
    newSucceeds stdoutCfg worldStdoutFail = false ∧
    newSucceeds noLoggerOtlpCfg world0 = false :=
  ⟨(c6_new_error_conditions noLoggerOtlpCfg world0 rfl).1 rfl,
   (c6_new_error_conditions noLoggerOtlpCfg world0 rfl).2.1 rfl rfl rfl,
   (c6_new_error_conditions stdoutCfg worldStdoutFail rfl).2.2.1 rfl rfl (by decide)
     "creating stdout exporter: stdout construction failed" rfl,
   (c6_new_error_conditions noLoggerOtlpCfg world0 rfl).2.2.2 rfl rfl rfl rfl⟩

/-- C7: Close shuts down only a provider the connector itself created,
within the configured (positive) bounded timeout; a connector that never
created an internal provider performs no shutdown work and returns nil;
on a no-op connector Close performs no work and returns nil (and, being a
pure function of the connector, repeated calls return nil again). -/
theorem c7_close (cfg : Config) (w : World) (c : Connector) (w' : World) (e : Option String)
    (h : New cfg w = Except.ok (c, w')) :
    (c.tracerProvider = none → c.closeAction = CloseAction.noWork ∧ c.Close e = none) ∧
    (∀ t, c.closeAction = CloseAction.shutdownInternal t →
      (∃ tp, c.tracerProvider = some tp) ∧ t = c.config.shutdownTimeout ∧ 0 < t) ∧
    (c.isNoOp = true → c.closeAction = CloseAction.noWork ∧ c.Close e = none) := by
  refine ⟨?_, ?_, ?_⟩
  · intro hn
    unfold Connector.closeAction Connector.Close
    rw [hn]
    by_cases hno : c.isNoOp = true <;> simp [hno]
  · intro t ht
    unfold Connector.closeAction at ht
    by_cases hno : c.isNoOp = true
    · simp [hno] at ht
    · simp [hno] at ht
      cases htp : c.tracerProvider with
      | none =>
        rw [htp] at ht
        simp at ht
      | some tp =>
        rw [htp] at ht
        simp at ht
        refine ⟨⟨tp, rfl⟩, ht.symm, ?_⟩
        rw [← ht]
        rcases new_ok_cases cfg w c w' h with ⟨-, hc, -⟩ | ⟨-, tpI, noop, w1, -, hc⟩
        · subst hc
          simp at htp
        · subst hc
          exact defaultedConfig_shutdownTimeout_pos cfg w
  · intro hno
    unfold Connector.closeAction Connector.Close
    simp [hno]

/-- Witness for C7: Close on the no-op connector produced by the disabled
configuration performs no work and returns nil. -/
theorem c7_close_witness :
    connNoOp.closeAction = CloseAction.noWork ∧ connNoOp.Close none = none :=
  (c7_close disabledCfg world0 connNoOp world0 none rfl).2.2 rfl

/-- C8 counterexample: a no-op connector (built with the disabled flag)
whose GetTracer returns a recording tracer, because an earlier active New
installed a real global tracer provider. The claim that GetTracer on a
no-op connector always returns a no-op tracer is therefore false. -/
theorem c8_counterexample :
    New stdoutCfg world0 = Except.ok (connActive, world1) ∧
    New disabledCfg world1 = Except.ok (connNoOp, world1) ∧
    connNoOp.IsNoOp = true ∧
    (connNoOp.GetTracer world1 "handler.root").recordsSpans = true :=
  ⟨rfl, rfl, rfl, rfl⟩

/-- C8 (amended): for every no-op connector, GetTracer returns the tracer
of the process-global tracer provider; that tracer is a no-op (records
nothing) whenever the global provider is still the default no-op provider,
in particular when no provider was ever installed globally. -/
theorem c8_noop_gettracer (c : Connector) (w : World) (nm : String)
    (h1 : c.isNoOp = true) (h2 : w.globalTracerProvider = TP.noopDefault) :
    c.GetTracer w nm = { provider := w.globalTracerProvider, instName := nm } ∧
    (c.GetTracer w nm).recordsSpans = false := by
  unfold Connector.GetTracer
  simp [h1, h2, Tracer.recordsSpans]

/-- Witness for C8 (amended) at a concrete no-op connector in a world
whose global provider was never set. -/
theorem c8_noop_gettracer_witness :
    connNoOp.GetTracer world0 "lib" =
      { provider := world0.globalTracerProvider, instName := "lib" } ∧
    (connNoOp.GetTracer world0 "lib").recordsSpans = false :=
  c8_noop_gettracer connNoOp world0 "lib" rfl rfl

/-- C10: for every no-op connector, Propagator() is the freshly built empty
composite propagator — not the propagator supplied in the configuration —
and extracting from any carrier through it returns the input context
unchanged. -/
theorem c10_noop_propagator (c : Connector) (h : c.isNoOp = true) :
    c.Propagator = ([] : PropagatorVal) ∧
    ∀ sem ctx car, extractProp sem c.Propagator ctx car = ctx := by
  have hp : c.Propagator = [] := by
    unfold Connector.Propagator
    simp [h]
  exact ⟨hp, fun sem ctx car => by rw [hp]; rfl⟩

/-- Witness for C10: the disabled connector holds a custom propagator in
its configuration, yet Propagator() is the empty composite and extraction
through it is the identity. -/
theorem c10_noop_propagator_witness :
    connNoOp.config.propagator = some [PrimProp.custom 7] ∧
    connNoOp.Propagator = ([] : PropagatorVal) ∧
    ∀ sem ctx car, extractProp sem connNoOp.Propagator ctx car = ctx :=
  ⟨rfl, (c10_noop_propagator connNoOp rfl).1, (c10_noop_propagator connNoOp rfl).2⟩

end XyliumOtel
